import Mathlib

/-!
Verification development for the trust-mart backend: a shallow embedding of the
seller-scoring engine (`SellerScoringService`, `BehaviorMonitoringService`) and
of the escrow transaction orchestrator (`EscrowTransactionService`), together
with theorems about their aggregation, tiering, rollback and authorization
behaviour.  JavaScript numbers are modelled as exact rationals, fallible
steps as `Except`, and the database as explicit record state.
-/

namespace TrustMart

/-! ## Scoring data model (SellerScoringService.js) -/

/-- A partial analyzer result: the `score` field is `none` when the JS object
carries no numeric `score` (the `typeof scores[factor].score === 'number'`
guard), `some v` when it is the number `v`. -/
structure PartialScore where
  score : Option ℚ
  reason : String
deriving DecidableEq, Repr

/-- The six scoring factors, in the insertion order of `this.scoringWeights`
(SellerScoringService.js lines 17-35). -/
inductive ScoreFactor
  | socialVerification
  | legitimacyScore
  | behaviorScore
  | fraudScore
  | transactionHistory
  | productQuality
deriving DecidableEq, Repr

/-- `this.scoringWeights` (SellerScoringService.js lines 17-35):
0.25, 0.20, 0.20, 0.15, 0.10, 0.10. -/
def scoringWeights : ScoreFactor → ℚ
  | .socialVerification => 1/4
  | .legitimacyScore => 1/5
  | .behaviorScore => 1/5
  | .fraudScore => 3/20
  | .transactionHistory => 1/10
  | .productQuality => 1/10

/-- `Object.entries(this.scoringWeights)` iteration order. -/
def scoreFactors : List ScoreFactor :=
  [.socialVerification, .legitimacyScore, .behaviorScore, .fraudScore,
   .transactionHistory, .productQuality]

/-- The running `(totalScore, totalWeight)` accumulation shared by
`calculateWeightedScore` (SellerScoringService.js lines 506-518) and
`calculateBehaviorScore` (BehaviorMonitoringService.js lines 480-499):
a factor whose effective value is `none` contributes to neither sum. -/
def weightedTotals {α : Type} (w : α → ℚ) (val : α → Option ℚ) (l : List α) : ℚ × ℚ :=
  l.foldl (fun acc f =>
    match val f with
    | some v => (acc.1 + v * w f, acc.2 + w f)
    | none => acc) (0, 0)

/-- The effective numeric value of `scores[factor]`: present only when the
partial exists and its `score` field is a number
(`scores[factor] && typeof scores[factor].score === 'number'`). -/
def effVal (scores : ScoreFactor → Option PartialScore) : ScoreFactor → Option ℚ :=
  fun f => (scores f).bind PartialScore.score

/-- The factors of `l` that the aggregation actually includes. -/
def includedList {α : Type} (val : α → Option ℚ) (l : List α) : List α :=
  l.filter (fun f => (val f).isSome)

/-- `calculateWeightedScore` (SellerScoringService.js lines 506-518):
weighted sum over present numeric partials divided by the sum of their
weights; `0.5` when no weight accumulated. -/
def calculateWeightedScore (scores : ScoreFactor → Option PartialScore) : ℚ :=
  let t := weightedTotals scoringWeights (effVal scores) scoreFactors
  if 0 < t.2 then t.1 / t.2 else 1/2

/-! ### Behavior sub-score aggregation (BehaviorMonitoringService.js) -/

/-- The four behavior sub-domains, in the insertion order of the local
`weights` object of `calculateBehaviorScore` (BehaviorMonitoringService.js
lines 481-486). -/
inductive BehaviorCategory
  | listing
  | communication
  | transaction
  | account
deriving DecidableEq, Repr

/-- Sub-domain weights: listing 0.3, communication 0.25, transaction 0.25,
account 0.2. -/
def behaviorWeights : BehaviorCategory → ℚ
  | .listing => 3/10
  | .communication => 1/4
  | .transaction => 1/4
  | .account => 1/5

def behaviorCategories : List BehaviorCategory :=
  [.listing, .communication, .transaction, .account]

/-- One sub-domain analysis object; only its `score` field matters to the
aggregation, and it is `none` when the field is not a number. -/
structure BehaviorAnalysis where
  score : Option ℚ
deriving DecidableEq, Repr

/-- Effective value of `analyses[category]`
(`analysis && typeof analysis.score === 'number'`). -/
def behaviorVal (analyses : BehaviorCategory → Option BehaviorAnalysis) :
    BehaviorCategory → Option ℚ :=
  fun c => (analyses c).bind BehaviorAnalysis.score

/-- `calculateBehaviorScore` (BehaviorMonitoringService.js lines 480-499). -/
def calculateBehaviorScore (analyses : BehaviorCategory → Option BehaviorAnalysis) : ℚ :=
  let t := weightedTotals behaviorWeights (behaviorVal analyses) behaviorCategories
  if 0 < t.2 then t.1 / t.2 else 1/2

/-! ### Score tiers (SellerScoringService.js lines 37-44 and 523-537) -/

inductive TierName
  | excellent
  | veryGood
  | good
  | fair
  | poor
  | veryPoor
deriving DecidableEq, Repr

/-- One band of `this.scoreTiers`. -/
structure TierInfo where
  name : TierName
  label : String
  min : ℚ
  max : ℚ
deriving DecidableEq, Repr

/-- `this.scoreTiers` in insertion order (SellerScoringService.js lines
37-44); note the numeric `max` values 0.89, 0.79, 0.69, 0.59, 0.39. -/
def scoreTiers : List TierInfo :=
  [⟨.excellent, "Excellent", 9/10, 1⟩,
   ⟨.veryGood, "Very Good", 4/5, 89/100⟩,
   ⟨.good, "Good", 7/10, 79/100⟩,
   ⟨.fair, "Fair", 3/5, 69/100⟩,
   ⟨.poor, "Poor", 2/5, 59/100⟩,
   ⟨.veryPoor, "Very Poor", 0, 39/100⟩]

/-- The `for..of` loop of `getScoreTier`: the first band of the list with
`score >= config.min && score <= config.max`. -/
def findTier (score : ℚ) : List TierInfo → Option TierInfo
  | [] => none
  | c :: rest => if c.min ≤ score ∧ score ≤ c.max then some c else findTier score rest

/-- `getScoreTier` (SellerScoringService.js lines 523-537): the first band
that contains the score, else the `veryPoor` configuration as fallback. -/
def getScoreTier (score : ℚ) : TierInfo :=
  match findTier score scoreTiers with
  | some t => t
  | none => ⟨.veryPoor, "Very Poor", 0, 39/100⟩

/-! ### Analyzers (SellerScoringService.js lines 200-478)

Each analyzer's data-fetch step is modelled as an `Except String` input: an
`Except.error` input is a thrown/rejected fetch, and each analyzer's
`try/catch` converts it into a fallback partial score instead of
propagating it. -/

/-- One linked social account, as consumed by
`calculateSocialVerificationScore`: `verificationScore` is `none` when the
field is absent (the `account.verificationScore &&` truthiness guard). -/
structure SocialAccount where
  platform : String
  verificationScore : Option ℚ
deriving DecidableEq, Repr

/-- The result of `socialLinking.getUserLinkedAccounts`. -/
structure LinkedAccountsResult where
  success : Bool
  accounts : List SocialAccount
deriving DecidableEq, Repr

/-- The per-platform bonus weights of `calculatePlatformBonus`
(SellerScoringService.js lines 483-501); unknown platforms contribute 0. -/
def platformWeight (platform : String) : ℚ :=
  if platform = "facebook" then 1/10
  else if platform = "instagram" then 3/20
  else if platform = "whatsapp" then 1/10
  else if platform = "contact" then 1/20
  else 0

/-- `calculatePlatformBonus`: sum of the weights of the distinct linked
platforms, capped at 0.2. -/
def calculatePlatformBonus (accounts : List SocialAccount) : ℚ :=
  min (((accounts.map SocialAccount.platform).dedup.map platformWeight).sum) (1/5)

/-- `calculateSocialVerificationScore` (SellerScoringService.js lines
203-247); the `catch` branch (lines 243-246) is the `Except.error` case. -/
def calculateSocialVerificationScore (fetch : Except String LinkedAccountsResult) :
    PartialScore :=
  match fetch with
  | .error _ => ⟨some (3/10), "Social verification analysis failed"⟩
  | .ok la =>
    if !la.success || la.accounts.isEmpty then
      ⟨some (1/5), "No social accounts linked"⟩
    else
      let verified := la.accounts.filter (fun a =>
        match a.verificationScore with
        | some v => decide (v > 1/2)
        | none => false)
      let totalScore := (verified.map (fun a => a.verificationScore.getD 0)).sum
      let verifiedAccounts := verified.length
      let avgScore : ℚ := if verifiedAccounts > 0 then totalScore / verifiedAccounts else 0
      let finalScore := min (avgScore + calculatePlatformBonus la.accounts) 1
      ⟨some finalScore,
       if verifiedAccounts > 0 then "verified accounts" else "No verified accounts"⟩

/-- The `legitimacyScore`/`legitimacyRiskLevel` attributes read by
`calculateLegitimacyScore`; the score is `none` when null/absent (the
`!user.legitimacyScore` guard). -/
structure LegitRow where
  legitimacyScore : Option ℚ
  legitimacyRiskLevel : String
deriving DecidableEq, Repr

/-- `calculateLegitimacyScore` (SellerScoringService.js lines 252-282). -/
def calculateLegitimacyScore (fetch : Except String (Option LegitRow)) : PartialScore :=
  match fetch with
  | .error _ => ⟨some (1/2), "Legitimacy analysis failed"⟩
  | .ok none => ⟨some (1/2), "Legitimacy not assessed"⟩
  | .ok (some u) =>
    match u.legitimacyScore with
    | none => ⟨some (1/2), "Legitimacy not assessed"⟩
    | some v => ⟨some v, "Legitimacy risk assessed"⟩

/-- The `behaviorScore`/`behaviorRiskLevel` attributes read by the seller
scoring service's `calculateBehaviorScore` (lines 287-317). -/
structure BehaviorRow where
  behaviorScore : Option ℚ
  behaviorRiskLevel : String
deriving DecidableEq, Repr

/-- SellerScoringService's own `calculateBehaviorScore` (lines 287-317),
which reads the cached per-user behavior fields. -/
def calculateUserBehaviorScore (fetch : Except String (Option BehaviorRow)) : PartialScore :=
  match fetch with
  | .error _ => ⟨some (1/2), "Behavior analysis failed"⟩
  | .ok none => ⟨some (1/2), "Behavior not assessed"⟩
  | .ok (some u) =>
    match u.behaviorScore with
    | none => ⟨some (1/2), "Behavior not assessed"⟩
    | some v => ⟨some v, "Behavior risk assessed"⟩

/-- `calculateFraudScore` (SellerScoringService.js lines 322-359); the fetch
yields the per-product fraud-analysis scores produced by
`fraudDetection.analyzeProduct` over the seller's recent products, and the
`catch` branch (lines 355-358) is the `Except.error` case. -/
def calculateFraudScore (fetch : Except String (List ℚ)) : PartialScore :=
  match fetch with
  | .error _ => ⟨some (1/2), "Fraud analysis failed"⟩
  | .ok analysisScores =>
    if analysisScores.isEmpty then ⟨some (7/10), "No products to analyze"⟩
    else
      let avgFraudScore := analysisScores.sum / (analysisScores.length : ℚ)
      ⟨some avgFraudScore,
       if avgFraudScore > 7/10 then "Low fraud risk" else "Fraud risk detected"⟩

/-- The simulated transaction data of `calculateTransactionScore`
(SellerScoringService.js lines 369-378); the randomness is an input here. -/
structure TxHistoryData where
  totalTransactions : ℚ
  successfulTransactions : ℚ
  totalVolume : ℚ
  disputeRate : ℚ
  averageRating : ℚ
deriving DecidableEq, Repr

/-- `calculateTransactionScore` (SellerScoringService.js lines 364-408). -/
def calculateTransactionScore (fetch : Except String TxHistoryData) : PartialScore :=
  match fetch with
  | .error _ => ⟨some (1/2), "Transaction analysis failed"⟩
  | .ok d =>
    let successRate := d.successfulTransactions / d.totalTransactions
    let afterSuccess : ℚ := 4/5 + (successRate - 4/5) * (2/5)
    let volumeScore := min (d.totalVolume / 20000) 1
    let afterVolume := afterSuccess + volumeScore * (1/5)
    let afterDispute :=
      if d.disputeRate > 1/50 then afterVolume - (d.disputeRate - 1/50) * 10 else afterVolume
    let ratingScore := (d.averageRating - 1) / 4
    let afterRating := afterDispute + ratingScore * (1/5)
    ⟨some (max 0 (min afterRating 1)),
     if successRate > 9/10 then "Excellent transaction history"
     else "Good transaction history"⟩

/-- One product row as read by `calculateProductQualityScore`
(status, ai_verification_score, price; `quantity` only feeds the unused
`totalValue` detail and is omitted). -/
structure QualityRow where
  status : String
  ai_verification_score : Option ℚ
  price : ℚ
deriving DecidableEq, Repr

/-- `calculateProductQualityScore` (SellerScoringService.js lines 413-478). -/
def calculateProductQualityScore (fetch : Except String (List QualityRow)) : PartialScore :=
  match fetch with
  | .error _ => ⟨some (1/2), "Product quality analysis failed"⟩
  | .ok products =>
    if products.isEmpty then ⟨some (3/10), "No products listed"⟩
    else
      let total : ℚ := products.length
      let activeRatio := ((products.filter (fun p => p.status = "active")).length : ℚ) / total
      let flaggedRatio := ((products.filter (fun p => p.status = "flagged")).length : ℚ) / total
      let verifiedProducts := products.filter (fun p => p.ai_verification_score.isSome)
      let avgVerificationScore : ℚ :=
        if verifiedProducts.length > 0 then
          (verifiedProducts.map (fun p => p.ai_verification_score.getD 0)).sum
            / (verifiedProducts.length : ℚ)
        else 0
      let prices := products.map QualityRow.price
      let priceRange := prices.foldl max (prices.headD 0) - prices.foldl min (prices.headD 0)
      let diversityScore := min (priceRange / 1000) 1
      let score := activeRatio * (3/10) + (1 - flaggedRatio) * (1/5)
        + avgVerificationScore * (3/10) + diversityScore * (1/5)
      ⟨some (min score 1),
       if activeRatio > 4/5 then "High quality products" else "Mixed product quality"⟩

/-- The six analyzers' data-fetch outcomes, one `Except` per analyzer. -/
structure FetchInputs where
  social : Except String LinkedAccountsResult
  legitimacy : Except String (Option LegitRow)
  behavior : Except String (Option BehaviorRow)
  fraud : Except String (List ℚ)
  transactionData : Except String TxHistoryData
  productQuality : Except String (List QualityRow)

/-- The breakdown object assembled by `calculateSellerScore` (lines
129-153): every factor maps to its analyzer's partial score. -/
def sellerScoreBreakdown (inp : FetchInputs) : ScoreFactor → PartialScore
  | .socialVerification => calculateSocialVerificationScore inp.social
  | .legitimacyScore => calculateLegitimacyScore inp.legitimacy
  | .behaviorScore => calculateUserBehaviorScore inp.behavior
  | .fraudScore => calculateFraudScore inp.fraud
  | .transactionHistory => calculateTransactionScore inp.transactionData
  | .productQuality => calculateProductQualityScore inp.productQuality

/-- The value returned by `calculateSellerScore` on its success path. -/
structure SellerScoreResult where
  overallScore : ℚ
  scoreTier : TierInfo
deriving DecidableEq, Repr

/-- `calculateSellerScore` (SellerScoringService.js lines 119-198): errors
only when the user row is missing; every analyzer outcome — including any
erroring fetch — is folded into the weighted aggregate. -/
def calculateSellerScore (userExists : Bool) (inp : FetchInputs) :
    Except String SellerScoreResult :=
  match userExists with
  | false => .error "Seller score calculation failed: User not found"
  | true =>
    let overallScore := calculateWeightedScore (fun f => some (sellerScoreBreakdown inp f))
    .ok ⟨overallScore, getScoreTier overallScore⟩

/-! ### Scoring scheduler (SellerScoringService.js lines 73-114) -/

/-- Whether the interval callback installed by `startScoringScheduler`
(SellerScoringService.js lines 73-84) invokes `processScoringQueue` on a
tick, as a function of whether the previous tick's run is still processing.
Translated from the source: the callback body unconditionally awaits
`processScoringQueue()`; the service holds no in-progress flag or guard
state of any kind, so the decision cannot and does not depend on a run
being in progress. -/
def schedulerTickRunsQueue (_previousRunStillProcessing : Bool) : Bool :=
  true

/-! ## Escrow orchestrator data model (EscrowTransactionService.js)

Ids (users, products, orders, escrow addresses) are abstracted to naturals;
monetary amounts to rationals.  Each `sequelize.transaction()` block is
modelled by building the updated state and installing it only at the
`commit` point; a `rollback` leaves the previously committed state. -/

/-- Order statuses: the `OrderStatus` enum of utils/types.js plus the raw
`release_pending` / `dispute_pending` strings used by
EscrowTransactionService.js. -/
inductive EscrowOrderStatus
  | pending
  | paid
  | shipped
  | delivered
  | completed
  | cancelled
  | disputed
  | refunded
  | release_pending
  | dispute_pending
deriving DecidableEq, Repr

/-- Transaction (ledger entry) statuses: the `PaymentStatus` enum of
utils/types.js plus the raw `released` / `disputed` strings used by
EscrowTransactionService.js. -/
inductive LedgerTxStatus
  | pending
  | submitted
  | confirmed
  | failed
  | cancelled
  | released
  | disputed
deriving DecidableEq, Repr

/-- The `transaction_type` values used by the escrow service. -/
inductive LedgerTxType
  | escrow_create
  | escrow_release
  | escrow_dispute
deriving DecidableEq, Repr

/-- One row of the Orders table (the fields the escrow operations read or
write). -/
structure OrderRow where
  order_id : ℕ
  buyer_id : ℕ
  seller_id : ℕ
  product_id : ℕ
  amount : ℚ
  status : EscrowOrderStatus
  escrow_address : Option ℕ
deriving DecidableEq, Repr

/-- One row of the Transactions table. -/
structure LedgerTxRow where
  order_id : ℕ
  transaction_type : LedgerTxType
  status : LedgerTxStatus
deriving DecidableEq, Repr

/-- One row of the Products table. -/
structure EscrowProductRow where
  product_id : ℕ
  seller_id : ℕ
  status : String
  price : ℚ
  quantity : ℤ
deriving DecidableEq, Repr

/-- The committed local database state seen by the escrow service. -/
structure LedgerDB where
  users : List ℕ
  products : List EscrowProductRow
  orders : List OrderRow
  txns : List LedgerTxRow
deriving DecidableEq, Repr

def findProduct (db : LedgerDB) (productId : ℕ) : Option EscrowProductRow :=
  db.products.find? (fun p => p.product_id = productId)

def findOrder (db : LedgerDB) (orderId : ℕ) : Option OrderRow :=
  db.orders.find? (fun o => o.order_id = orderId)

/-- The outcome of one external `SettlementBackend` call
(`createEscrowPurchase` / `releaseEscrow` / `raiseDispute` of the payment
service). -/
structure SettlementResult where
  success : Bool
  escrowAddress : ℕ
deriving DecidableEq, Repr

/-- `rollbackOrder` (EscrowTransactionService.js lines 475-499): in its own
committed transaction, delete every Transaction row and every Order row
with the given `order_id`.  The product quantity is not touched here (the
source comment at lines 490-491). -/
def rollbackOrder (db : LedgerDB) (orderId : ℕ) : LedgerDB :=
  { db with
    txns := db.txns.filter (fun t => t.order_id ≠ orderId),
    orders := db.orders.filter (fun o => o.order_id ≠ orderId) }

/-- `rollbackOrderStatus` (EscrowTransactionService.js lines 501-526): set
the order's status to `previousStatus` and mark every pending Transaction
of that order `failed`, in one committed transaction. -/
def rollbackOrderStatus (db : LedgerDB) (orderId : ℕ) (previousStatus : EscrowOrderStatus) :
    LedgerDB :=
  { db with
    orders := db.orders.map (fun o =>
      if o.order_id = orderId then { o with status := previousStatus } else o),
    txns := db.txns.map (fun t =>
      if t.order_id = orderId ∧ t.status = LedgerTxStatus.pending
      then { t with status := LedgerTxStatus.failed } else t) }

/-- `createProductEscrow` (EscrowTransactionService.js lines 18-239).

Control flow, from the source: one local transaction is opened at line 25
and stays open across the IPFS upload (line 90), the Order and Transaction
inserts (lines 110, 126), the quantity decrement (line 151) **and the
external settlement call** (line 160); it is committed at line 178 only
after the external call succeeded.  On a failed settlement call,
`rollbackOrder` runs against the committed state (the inserted rows were
never committed) and the open transaction is rolled back by the `catch`
block (lines 231-238), discarding the inserts and the quantity decrement.
On success, a second transaction (lines 180-202) marks the ledger entry
`submitted` and the order `paid`; its own failure branch (lines 214-229)
is not modelled — it is taken as succeeding. -/
def createProductEscrow (db : LedgerDB) (buyerId productId : ℕ) (quantity : ℤ)
    (orderId : ℕ) (ipfs : Except String Unit) (ext : SettlementResult) :
    Except String (ℕ × EscrowOrderStatus) × LedgerDB :=
  if buyerId ∉ db.users then
    (.error "Purchase failed: Buyer not found", db)
  else
    match findProduct db productId with
    | none => (.error "Purchase failed: Product not found", db)
    | some product =>
      if product.status ≠ "active" then
        (.error "Purchase failed: Product is not available for purchase", db)
      else if product.quantity < quantity then
        (.error "Purchase failed: Insufficient product quantity", db)
      else
        match ipfs with
        | .error _ => (.error "Purchase failed: metadata upload failed", db)
        | .ok _ =>
          let pendingDB : LedgerDB :=
            { db with
              orders := db.orders
                ++ [⟨orderId, buyerId, product.seller_id, productId,
                     product.price * quantity, .pending, none⟩],
              txns := db.txns ++ [⟨orderId, .escrow_create, .pending⟩],
              products := db.products.map (fun p =>
                if p.product_id = productId
                then { p with quantity := p.quantity - quantity } else p) }
          if ext.success = false then
            (.error "Purchase failed: Escrow creation failed", rollbackOrder db orderId)
          else
            let committed := pendingDB
            let final : LedgerDB :=
              { committed with
                orders := committed.orders.map (fun o =>
                  if o.order_id = orderId
                  then { o with status := .paid, escrow_address := some ext.escrowAddress }
                  else o),
                txns := committed.txns.map (fun t =>
                  if t.order_id = orderId ∧ t.transaction_type = LedgerTxType.escrow_create
                  then { t with status := .submitted } else t) }
            (.ok (orderId, .paid), final)

/-- `releaseEscrow` (EscrowTransactionService.js lines 244-357): validate
order, caller, escrow address and `paid` status inside a first transaction;
insert the pending `escrow_release` ledger entry and set the order to
`release_pending`; commit; call the settlement backend; on failure run
`rollbackOrderStatus(orderId, 'paid')`, on success mark the entry
`released` and the order `completed` in a second transaction. -/
def releaseEscrow (db : LedgerDB) (buyerId orderId : ℕ) (ext : SettlementResult) :
    Except String Unit × LedgerDB :=
  match findOrder db orderId with
  | none => (.error "Release failed: Order not found", db)
  | some order =>
    if order.buyer_id ≠ buyerId then
      (.error "Release failed: Only buyer can release funds", db)
    else
      match order.escrow_address with
      | none => (.error "Release failed: No escrow associated with this order", db)
      | some _ =>
        if order.status ≠ EscrowOrderStatus.paid then
          (.error "Release failed: Order is not in paid status", db)
        else
          let committed : LedgerDB :=
            { db with
              txns := db.txns ++ [⟨orderId, .escrow_release, .pending⟩],
              orders := db.orders.map (fun o =>
                if o.order_id = orderId then { o with status := .release_pending } else o) }
          if ext.success = false then
            (.error "Release failed: Escrow release failed",
             rollbackOrderStatus committed orderId .paid)
          else
            (.ok (),
             { committed with
               txns := committed.txns.map (fun t =>
                 if t.order_id = orderId ∧ t.transaction_type = LedgerTxType.escrow_release
                    ∧ t.status = LedgerTxStatus.pending
                 then { t with status := .released } else t),
               orders := committed.orders.map (fun o =>
                 if o.order_id = orderId then { o with status := .completed } else o) })

/-- `raiseDispute` (EscrowTransactionService.js lines 362-472): require only
that the order exists and the caller is its buyer or seller — the order's
current status is never checked; insert the pending `escrow_dispute` ledger
entry and set the order to `dispute_pending`; commit; call the settlement
backend; on failure run `rollbackOrderStatus(orderId, 'paid')`
unconditionally, on success mark the entry and the order `disputed`. -/
def raiseDispute (db : LedgerDB) (userId orderId : ℕ) (ext : SettlementResult) :
    Except String Unit × LedgerDB :=
  match findOrder db orderId with
  | none => (.error "Dispute failed: Order not found", db)
  | some order =>
    if order.buyer_id ≠ userId ∧ order.seller_id ≠ userId then
      (.error "Dispute failed: Only buyer or seller can raise dispute", db)
    else
      let committed : LedgerDB :=
        { db with
          txns := db.txns ++ [⟨orderId, .escrow_dispute, .pending⟩],
          orders := db.orders.map (fun o =>
            if o.order_id = orderId then { o with status := .dispute_pending } else o) }
      if ext.success = false then
        (.error "Dispute failed: Dispute raise failed",
         rollbackOrderStatus committed orderId .paid)
      else
        (.ok (),
         { committed with
           txns := committed.txns.map (fun t =>
             if t.order_id = orderId ∧ t.transaction_type = LedgerTxType.escrow_dispute
                ∧ t.status = LedgerTxStatus.pending
             then { t with status := .disputed } else t),
           orders := committed.orders.map (fun o =>
             if o.order_id = orderId then { o with status := .disputed } else o) })

/-! ### Event traces of the three escrow operations

For the temporal claim about transaction/commit ordering, each operation's
success path is written out as the sequence of database and external events
it performs, in source order. -/

inductive EscrowEvent
  | beginLocalTx
  | ipfsUpload
  | insertOrderRow
  | insertTxnRow
  | decrementQuantity
  | externalSettlementCall
  | commitLocalTx
  | updateTxnRow
  | updateOrderRow
deriving DecidableEq, Repr

/-- The success path of `createProductEscrow`, in source order: the
transaction opened at line 25 is committed at line 178, after the external
settlement call at line 160. -/
def createEscrowEvents : List EscrowEvent :=
  [.beginLocalTx, .ipfsUpload, .insertOrderRow, .insertTxnRow, .decrementQuantity,
   .externalSettlementCall, .commitLocalTx,
   .beginLocalTx, .updateTxnRow, .updateOrderRow, .commitLocalTx]

/-- The success path of `releaseEscrow`: the first transaction commits at
line 300, before the external call at line 303. -/
def releaseEscrowEvents : List EscrowEvent :=
  [.beginLocalTx, .insertTxnRow, .updateOrderRow, .commitLocalTx,
   .externalSettlementCall,
   .beginLocalTx, .updateTxnRow, .updateOrderRow, .commitLocalTx]

/-- The success path of `raiseDispute`: the first transaction commits at
line 417, before the external call at line 420. -/
def raiseDisputeEvents : List EscrowEvent :=
  [.beginLocalTx, .insertTxnRow, .updateOrderRow, .commitLocalTx,
   .externalSettlementCall,
   .beginLocalTx, .updateTxnRow, .updateOrderRow, .commitLocalTx]

/-- Whether the first local commit happens strictly before the external
settlement call, i.e. no local transaction is held open across it. -/
def commitPrecedesExternalCall (events : List EscrowEvent) : Bool :=
  match events.findIdx? (fun e => e = EscrowEvent.commitLocalTx),
        events.findIdx? (fun e => e = EscrowEvent.externalSettlementCall) with
  | some i, some j => i < j
  | _, _ => false

/-! ## Aggregation lemmas -/

theorem weightedTotals_foldl {α : Type} (w : α → ℚ) (val : α → Option ℚ) :
    ∀ (l : List α) (a b : ℚ),
      l.foldl (fun acc f =>
        match val f with
        | some v => (acc.1 + v * w f, acc.2 + w f)
        | none => acc) (a, b)
      = (a + ((includedList val l).map (fun f => (val f).getD 0 * w f)).sum,
         b + ((includedList val l).map w).sum) := by
  intro l
  induction l with
  | nil => intro a b; simp [includedList]
  | cons f l ih =>
    intro a b
    rcases hv : val f with _ | v
    · have hincl : includedList val (f :: l) = includedList val l := by
        simp [includedList, List.filter_cons, hv]
      rw [List.foldl_cons]
      simp only [hv]
      rw [ih, hincl]
    · have hincl : includedList val (f :: l) = f :: includedList val l := by
        simp [includedList, List.filter_cons, hv]
      rw [List.foldl_cons]
      simp only [hv]
      rw [ih, hincl]
      simp [hv, add_assoc]

theorem weightedTotals_eq {α : Type} (w : α → ℚ) (val : α → Option ℚ) (l : List α) :
    weightedTotals w val l
      = (((includedList val l).map (fun f => (val f).getD 0 * w f)).sum,
         ((includedList val l).map w).sum) := by
  unfold weightedTotals
  rw [weightedTotals_foldl]
  simp

/-- The common weighted-average shape of both aggregators: when at least one
factor is included and all weights are positive, the result is the weighted
mean over exactly the included factors, renormalized by their weights. -/
theorem weightedAvg_spec {α : Type} (w : α → ℚ) (val : α → Option ℚ) (l : List α)
    (hw : ∀ f ∈ l, 0 < w f) (h : includedList val l ≠ []) :
    (if 0 < (weightedTotals w val l).2
       then (weightedTotals w val l).1 / (weightedTotals w val l).2 else 1/2)
    = ((includedList val l).map (fun f => (val f).getD 0 * w f)).sum
        / ((includedList val l).map w).sum := by
  have hpos : 0 < ((includedList val l).map w).sum := by
    apply List.sum_pos
    · intro x hx
      obtain ⟨f, hf, rfl⟩ := List.mem_map.1 hx
      exact hw f (List.mem_of_mem_filter hf)
    · intro hc
      exact h (by simpa using hc)
  rw [weightedTotals_eq]
  simp [hpos]

theorem scoringWeights_pos : ∀ f, 0 < scoringWeights f := by
  intro f; cases f <;> norm_num [scoringWeights]

theorem behaviorWeights_pos : ∀ c, 0 < behaviorWeights c := by
  intro c; cases c <;> norm_num [behaviorWeights]

/-! ## Claim theorems: scoring -/

/-- C1: every aggregation of partial scores (both `calculateWeightedScore` of
SellerScoringService and `calculateBehaviorScore` of BehaviorMonitoringService)
equals the weighted mean Σ(value·weight)/Σ(weight) taken over exactly the
present partial scores with a numeric value; a failed or missing partial is
excluded from both the numerator and the denominator, and the overall value
depends only on the included partials' values — it is independent of the
failed partials' hypothetical content. -/
theorem aggregation_renormalized_weighted_mean :
    (∀ scores : ScoreFactor → Option PartialScore,
      includedList (effVal scores) scoreFactors ≠ [] →
      calculateWeightedScore scores
        = ((includedList (effVal scores) scoreFactors).map
             (fun f => (effVal scores f).getD 0 * scoringWeights f)).sum
          / ((includedList (effVal scores) scoreFactors).map scoringWeights).sum)
    ∧ (∀ s₁ s₂ : ScoreFactor → Option PartialScore,
        (∀ f, effVal s₁ f = effVal s₂ f) →
        calculateWeightedScore s₁ = calculateWeightedScore s₂)
    ∧ (∀ analyses : BehaviorCategory → Option BehaviorAnalysis,
        includedList (behaviorVal analyses) behaviorCategories ≠ [] →
        calculateBehaviorScore analyses
          = ((includedList (behaviorVal analyses) behaviorCategories).map
               (fun c => (behaviorVal analyses c).getD 0 * behaviorWeights c)).sum
            / ((includedList (behaviorVal analyses) behaviorCategories).map behaviorWeights).sum)
    ∧ (∀ a₁ a₂ : BehaviorCategory → Option BehaviorAnalysis,
        (∀ c, behaviorVal a₁ c = behaviorVal a₂ c) →
        calculateBehaviorScore a₁ = calculateBehaviorScore a₂) := by
  refine ⟨?_, ?_, ?_, ?_⟩
  · intro scores h
    unfold calculateWeightedScore
    exact weightedAvg_spec scoringWeights (effVal scores) scoreFactors
      (fun f _ => scoringWeights_pos f) h
  · intro s₁ s₂ h
    unfold calculateWeightedScore
    rw [funext h]
  · intro analyses h
    unfold calculateBehaviorScore
    exact weightedAvg_spec behaviorWeights (behaviorVal analyses) behaviorCategories
      (fun c _ => behaviorWeights_pos c) h
  · intro a₁ a₂ h
    unfold calculateBehaviorScore
    rw [funext h]

/-- An example input for the witness of C1: fraud and transaction-history
partials are failed (one entirely missing, one with a non-numeric score),
the other four are present. -/
def c1ExampleScores : ScoreFactor → Option PartialScore
  | .socialVerification => some ⟨some (4/5), "4 verified accounts"⟩
  | .legitimacyScore => some ⟨some (3/5), "Legitimacy: low risk"⟩
  | .behaviorScore => some ⟨some (1/2), "Behavior: medium risk"⟩
  | .fraudScore => none
  | .transactionHistory => some ⟨none, "Transaction analysis failed"⟩
  | .productQuality => some ⟨some (7/10), "High quality products"⟩

/-- A variant of `c1ExampleScores` that changes only the failed partials'
hypothetical content. -/
def c1ExampleScoresB : ScoreFactor → Option PartialScore
  | .fraudScore => some ⟨none, "some hypothetical failed fraud partial"⟩
  | .transactionHistory => none
  | f => c1ExampleScores f

theorem aggregation_renormalized_weighted_mean_witness :
    includedList (effVal c1ExampleScores) scoreFactors ≠ []
    ∧ calculateWeightedScore c1ExampleScores
        = ((includedList (effVal c1ExampleScores) scoreFactors).map
             (fun f => (effVal c1ExampleScores f).getD 0 * scoringWeights f)).sum
          / ((includedList (effVal c1ExampleScores) scoreFactors).map scoringWeights).sum
    ∧ calculateWeightedScore c1ExampleScores = calculateWeightedScore c1ExampleScoresB := by
  refine ⟨by decide, aggregation_renormalized_weighted_mean.1 c1ExampleScores (by decide), ?_⟩
  apply aggregation_renormalized_weighted_mean.2.1
  intro f
  cases f <;> rfl

/-- C2 (code bug): the claim says the tier bands are contiguous and
lower-inclusive, so every value in [0.80, 0.90) is VeryGood and the mapping
is monotone; but the source's band table leaves the gap (0.89, 0.90) (and
likewise (0.39, 0.40), (0.59, 0.60), (0.69, 0.70), (0.79, 0.80)) uncovered,
so `getScoreTier` falls through every band at 0.895 and returns the
`veryPoor` fallback — while 0.89 maps to VeryGood and 0.90 to Excellent,
violating monotonicity. -/
theorem getScoreTier_gap_not_veryGood :
    (getScoreTier (895/1000)).name = TierName.veryPoor
    ∧ (getScoreTier (89/100)).name = TierName.veryGood
    ∧ (getScoreTier (9/10)).name = TierName.excellent
    ∧ ((89:ℚ)/100 < 895/1000 ∧ (895:ℚ)/1000 < 9/10) := by
  refine ⟨?_, ?_, ?_, by norm_num⟩ <;>
    norm_num [getScoreTier, findTier, scoreTiers]

/-- C6 counterexample: when every partial is failed or missing the
aggregation does return 0.5, but `getScoreTier(0.5)` is the Poor band
(0.4-0.59), not Fair — so the claimed sentinel tier is wrong. -/
theorem allFailed_sentinel_not_fair :
    calculateWeightedScore (fun _ => none) = 1/2
    ∧ (getScoreTier (calculateWeightedScore (fun _ => none))).name ≠ TierName.fair := by
  have hval : calculateWeightedScore (fun _ => none) = 1/2 := by
    norm_num [calculateWeightedScore, weightedTotals, scoreFactors, effVal]
  refine ⟨hval, ?_⟩
  rw [hval]
  norm_num [getScoreTier, findTier, scoreTiers]
  decide

/-- C6 (amended): if every analyzer partial score is failed or missing,
`calculateWeightedScore` returns the neutral default 0.5 — not an error —
and that value maps to the Poor tier (label "Poor"), not Fair. -/
theorem allFailed_neutral_default_poor :
    calculateWeightedScore (fun _ => none) = 1/2
    ∧ (getScoreTier (calculateWeightedScore (fun _ => none))).name = TierName.poor
    ∧ (getScoreTier (calculateWeightedScore (fun _ => none))).label = "Poor" := by
  have hval : calculateWeightedScore (fun _ => none) = 1/2 := by
    norm_num [calculateWeightedScore, weightedTotals, scoreFactors, effVal]
  refine ⟨hval, ?_, ?_⟩ <;>
    rw [hval] <;> norm_num [getScoreTier, findTier, scoreTiers]

/-- C7: an error thrown or returned inside any single analyzer's data-fetch
step is caught within that analyzer and converted into a fallback partial
score rather than propagated (each analyzer's `catch` branch yields a plain
`PartialScore`), and `calculateSellerScore` therefore never aborts because
an analyzer failed: for every combination of fetch outcomes — including any
subset of them erroring — the caller receives a final score, never a
per-analyzer error. -/
theorem analyzer_failures_contained :
    (∀ e, calculateSocialVerificationScore (.error e)
        = ⟨some (3/10), "Social verification analysis failed"⟩)
    ∧ (∀ e, calculateFraudScore (.error e) = ⟨some (1/2), "Fraud analysis failed"⟩)
    ∧ (∀ e, calculateLegitimacyScore (.error e) = ⟨some (1/2), "Legitimacy analysis failed"⟩)
    ∧ (∀ e, calculateUserBehaviorScore (.error e) = ⟨some (1/2), "Behavior analysis failed"⟩)
    ∧ (∀ e, calculateTransactionScore (.error e) = ⟨some (1/2), "Transaction analysis failed"⟩)
    ∧ (∀ e, calculateProductQualityScore (.error e)
        = ⟨some (1/2), "Product quality analysis failed"⟩)
    ∧ (∀ inp : FetchInputs, (calculateSellerScore true inp).isOk = true) :=
  ⟨fun _ => rfl, fun _ => rfl, fun _ => rfl, fun _ => rfl, fun _ => rfl, fun _ => rfl,
   fun _ => rfl⟩

/-- C9 (code bug): the claim says a tick that fires while the previous run
is still processing skips, enforced by a per-family in-progress guard; but
the interval callback installed by `startScoringScheduler` has no guard at
all — it invokes `processScoringQueue` even when the previous run is still
processing. -/
theorem schedulerTick_never_skips : schedulerTickRunsQueue true = true :=
  rfl

/-! ## Escrow helper lemmas -/

theorem find?_order_after_rollback (l : List OrderRow) (oid : ℕ) :
    (l.filter (fun o => o.order_id ≠ oid)).find? (fun o => o.order_id = oid) = none := by
  induction l with
  | nil => rfl
  | cons a l ih =>
    by_cases h : a.order_id = oid
    · simp [List.filter_cons, h, ih]
    · simp [List.filter_cons, h, List.find?_cons, ih]

theorem filter_txn_after_rollback (l : List LedgerTxRow) (oid : ℕ) :
    (l.filter (fun t => t.order_id ≠ oid)).filter (fun t => t.order_id = oid) = [] := by
  induction l with
  | nil => rfl
  | cons a l ih =>
    by_cases h : a.order_id = oid
    · simp [List.filter_cons, h, ih]
    · simp [List.filter_cons, h, ih]

/-- After `rollbackOrderStatus db oid s`, every order row with id `oid` has
status `s`. -/
theorem rollbackOrderStatus_order_status (db : LedgerDB) (oid : ℕ) (s : EscrowOrderStatus) :
    ∀ r ∈ (rollbackOrderStatus db oid s).orders, r.order_id = oid → r.status = s := by
  intro r hr hrid
  simp only [rollbackOrderStatus] at hr
  obtain ⟨x, hx, rfl⟩ := List.mem_map.1 hr
  by_cases h : x.order_id = oid
  · simp [h]
  · simp only [if_neg h] at hrid
    exact absurd hrid h

/-! ## Claim theorems: escrow -/

/-- C3: if the external settlement call in `createProductEscrow` fails
(after all local validations passed), the operation returns the
escrow-creation-failed error and the final committed database contains no
Order row and no Transaction row for the generated `orderId`: the inserted
rows were still uncommitted and are discarded, and `rollbackOrder` removes
any committed row carrying that id. -/
theorem createEscrow_settlement_failure_rolls_back
    (db : LedgerDB) (buyerId productId : ℕ) (quantity : ℤ) (orderId : ℕ)
    (ext : SettlementResult) (product : EscrowProductRow)
    (hbuyer : buyerId ∈ db.users)
    (hprod : findProduct db productId = some product)
    (hactive : product.status = "active")
    (hqty : quantity ≤ product.quantity)
    (hext : ext.success = false) :
    (createProductEscrow db buyerId productId quantity orderId (.ok ()) ext).1
      = .error "Purchase failed: Escrow creation failed"
    ∧ findOrder (createProductEscrow db buyerId productId quantity orderId (.ok ()) ext).2
        orderId = none
    ∧ (createProductEscrow db buyerId productId quantity orderId (.ok ()) ext).2.txns.filter
        (fun t => t.order_id = orderId) = [] := by
  have hres : createProductEscrow db buyerId productId quantity orderId (.ok ()) ext
      = (.error "Purchase failed: Escrow creation failed", rollbackOrder db orderId) := by
    unfold createProductEscrow
    simp [hbuyer, hprod, hactive, hext, not_lt.2 hqty]
  refine ⟨by rw [hres], ?_, ?_⟩
  · rw [hres]
    simp [findOrder, rollbackOrder, find?_order_after_rollback]
  · rw [hres]
    simp [rollbackOrder, filter_txn_after_rollback]

/-- A concrete database for the witness of C3: user 1, an active product 42
(seller 2, price 100, stock 5), and no orders or ledger entries. -/
def c3DB : LedgerDB := ⟨[1], [⟨42, 2, "active", 100, 5⟩], [], []⟩

theorem createEscrow_settlement_failure_rolls_back_witness :
    (1 ∈ c3DB.users)
    ∧ ((createProductEscrow c3DB 1 42 2 100 (.ok ()) ⟨false, 0⟩).1
        = .error "Purchase failed: Escrow creation failed")
    ∧ findOrder (createProductEscrow c3DB 1 42 2 100 (.ok ()) ⟨false, 0⟩).2 100 = none
    ∧ ((createProductEscrow c3DB 1 42 2 100 (.ok ()) ⟨false, 0⟩).2.txns.filter
        (fun t => t.order_id = 100) = []) := by
  have h := createEscrow_settlement_failure_rolls_back c3DB 1 42 2 100 ⟨false, 0⟩
    ⟨42, 2, "active", 100, 5⟩ (by simp [c3DB]) rfl rfl (by norm_num) rfl
  exact ⟨by simp [c3DB], h.1, h.2.1, h.2.2⟩

/-- C4 counterexample: in `createProductEscrow`, the local transaction's
commit does not precede the external settlement call — the first commit in
the operation's event sequence comes after the external call, so a local
database transaction is held open across it. -/
theorem createEscrow_commit_after_external_call :
    commitPrecedesExternalCall createEscrowEvents = false := by
  decide

/-- C4 (amended): in `releaseEscrow` and `raiseDispute` the local intent
transaction is committed before the external settlement call, but in
`createProductEscrow` the local transaction that inserts the Order, inserts
the escrow_create Transaction and decrements `product.quantity` is held
open across the external `SettlementBackend.CreateEscrow` call and is
committed only after that call succeeds. -/
theorem escrow_commit_ordering :
    commitPrecedesExternalCall releaseEscrowEvents = true
    ∧ commitPrecedesExternalCall raiseDisputeEvents = true
    ∧ commitPrecedesExternalCall createEscrowEvents = false := by
  refine ⟨by decide, by decide, by decide⟩

/-- A concrete database for the counterexample and witness of C5. -/
def c5DB : LedgerDB := ⟨[1], [⟨42, 2, "active", 100, 5⟩], [], []⟩

/-- C5 counterexample: the claim says that after a failed settlement call
the product quantity remains lower by the purchased quantity (here 5 - 2 =
3); in fact the decrement was part of the still-open local transaction,
whose rollback restores it, so the stock is still 5. -/
theorem createEscrow_failure_quantity_not_decremented :
    ((createProductEscrow c5DB 1 42 2 100 (.ok ()) ⟨false, 0⟩).2.products.map
        EscrowProductRow.quantity ≠ [3])
    ∧ ((createProductEscrow c5DB 1 42 2 100 (.ok ()) ⟨false, 0⟩).2.products.map
        EscrowProductRow.quantity = [5]) := by
  have h5 : ((createProductEscrow c5DB 1 42 2 100 (.ok ()) ⟨false, 0⟩).2.products.map
      EscrowProductRow.quantity) = [5] := rfl
  refine ⟨?_, h5⟩
  rw [h5]
  decide

/-- C5 (amended): if the external settlement call fails, the Order and
Transaction rows are removed, but the quantity decrement is also undone:
it was executed inside the local transaction that the failure path rolls
back (the `rollbackOrder` comment about the decrement being already
committed does not match the code, which commits only after the external
call succeeds), so the products table is exactly as before the call. -/
theorem createEscrow_settlement_failure_restores_quantity
    (db : LedgerDB) (buyerId productId : ℕ) (quantity : ℤ) (orderId : ℕ)
    (ext : SettlementResult) (product : EscrowProductRow)
    (hbuyer : buyerId ∈ db.users)
    (hprod : findProduct db productId = some product)
    (hactive : product.status = "active")
    (hqty : quantity ≤ product.quantity)
    (hext : ext.success = false) :
    (createProductEscrow db buyerId productId quantity orderId (.ok ()) ext).2.products
      = db.products
    ∧ (createProductEscrow db buyerId productId quantity orderId (.ok ()) ext).1
        = .error "Purchase failed: Escrow creation failed" := by
  have hres : createProductEscrow db buyerId productId quantity orderId (.ok ()) ext
      = (.error "Purchase failed: Escrow creation failed", rollbackOrder db orderId) := by
    unfold createProductEscrow
    simp [hbuyer, hprod, hactive, hext, not_lt.2 hqty]
  rw [hres]
  exact ⟨rfl, rfl⟩

theorem createEscrow_settlement_failure_restores_quantity_witness :
    (1 ∈ c5DB.users)
    ∧ (createProductEscrow c5DB 1 42 2 100 (.ok ()) ⟨false, 0⟩).2.products = c5DB.products
    ∧ (createProductEscrow c5DB 1 42 2 100 (.ok ()) ⟨false, 0⟩).1
        = .error "Purchase failed: Escrow creation failed" := by
  have h := createEscrow_settlement_failure_restores_quantity c5DB 1 42 2 100 ⟨false, 0⟩
    ⟨42, 2, "active", 100, 5⟩ (by simp [c5DB]) rfl rfl (by norm_num) rfl
  exact ⟨by simp [c5DB], h.1, h.2⟩

/-- C8: `releaseEscrow` requires that the caller is the order's buyer and
that the order is in `paid` status.  A call by a non-buyer errors and leaves
the database (in particular the Order's status) unchanged; a call on an
order not in `paid` status errors and leaves the database unchanged; and
when the external Release call fails, the order's status is rolled back to
`paid` and the pending `escrow_release` Transaction created for the call is
marked `failed`. -/
theorem releaseEscrow_auth_and_rollback :
    (∀ (db : LedgerDB) (buyerId orderId : ℕ) (ext : SettlementResult) (o : OrderRow),
      findOrder db orderId = some o → o.buyer_id ≠ buyerId →
      releaseEscrow db buyerId orderId ext
        = (.error "Release failed: Only buyer can release funds", db))
    ∧ (∀ (db : LedgerDB) (buyerId orderId : ℕ) (ext : SettlementResult) (o : OrderRow),
        findOrder db orderId = some o → o.status ≠ EscrowOrderStatus.paid →
        (releaseEscrow db buyerId orderId ext).2 = db
        ∧ ∃ msg, (releaseEscrow db buyerId orderId ext).1 = .error msg)
    ∧ (∀ (db : LedgerDB) (buyerId orderId : ℕ) (ext : SettlementResult) (o : OrderRow)
        (a : ℕ),
        findOrder db orderId = some o → o.buyer_id = buyerId →
        o.escrow_address = some a → o.status = EscrowOrderStatus.paid →
        ext.success = false →
        (∃ msg, (releaseEscrow db buyerId orderId ext).1 = .error msg)
        ∧ (∀ r ∈ (releaseEscrow db buyerId orderId ext).2.orders,
            r.order_id = orderId → r.status = EscrowOrderStatus.paid)
        ∧ (∃ t ∈ (releaseEscrow db buyerId orderId ext).2.txns,
            t.order_id = orderId ∧ t.transaction_type = LedgerTxType.escrow_release
            ∧ t.status = LedgerTxStatus.failed)) := by
  refine ⟨?_, ?_, ?_⟩
  · intro db buyerId orderId ext o hfind hb
    unfold releaseEscrow
    rw [hfind]
    simp [hb]
  · intro db buyerId orderId ext o hfind hst
    unfold releaseEscrow
    rw [hfind]
    by_cases hb : o.buyer_id = buyerId
    · rcases he : o.escrow_address with _ | a
      · simp [hb, he]
      · simp [hb, he, hst]
    · simp [hb]
  · intro db buyerId orderId ext o a hfind hb he hst hext
    have hres : releaseEscrow db buyerId orderId ext
        = (.error "Release failed: Escrow release failed",
           rollbackOrderStatus
             { db with
               txns := db.txns ++ [⟨orderId, .escrow_release, .pending⟩],
               orders := db.orders.map (fun r =>
                 if r.order_id = orderId then { r with status := .release_pending } else r) }
             orderId .paid) := by
      unfold releaseEscrow
      rw [hfind]
      simp [hb, he, hst, hext]
    refine ⟨⟨_, by rw [hres]⟩, ?_, ?_⟩
    · rw [hres]
      exact rollbackOrderStatus_order_status _ orderId .paid
    · rw [hres]
      refine ⟨⟨orderId, .escrow_release, .failed⟩, ?_, rfl, rfl, rfl⟩
      simp only [rollbackOrderStatus]
      refine List.mem_map.2 ⟨⟨orderId, .escrow_release, .pending⟩, ?_, by simp⟩
      simp

/-- A concrete database for the witness of C8: order 7 belongs to buyer 1
and seller 2, is `paid` and has escrow address 77. -/
def c8DB : LedgerDB := ⟨[1, 2], [], [⟨7, 1, 2, 42, 200, .paid, some 77⟩], []⟩

theorem releaseEscrow_auth_and_rollback_witness :
    (releaseEscrow c8DB 99 7 ⟨true, 5⟩
       = (.error "Release failed: Only buyer can release funds", c8DB))
    ∧ (∀ r ∈ (releaseEscrow c8DB 1 7 ⟨false, 0⟩).2.orders,
        r.order_id = 7 → r.status = EscrowOrderStatus.paid)
    ∧ (∃ t ∈ (releaseEscrow c8DB 1 7 ⟨false, 0⟩).2.txns,
        t.order_id = 7 ∧ t.transaction_type = LedgerTxType.escrow_release
        ∧ t.status = LedgerTxStatus.failed) := by
  have h1 := releaseEscrow_auth_and_rollback.1 c8DB 99 7 ⟨true, 5⟩
    ⟨7, 1, 2, 42, 200, .paid, some 77⟩ rfl (by norm_num)
  have h3 := releaseEscrow_auth_and_rollback.2.2 c8DB 1 7 ⟨false, 0⟩
    ⟨7, 1, 2, 42, 200, .paid, some 77⟩ 77 rfl rfl rfl rfl rfl
  exact ⟨h1, h3.2.1, h3.2.2⟩

/-- C10: `raiseDispute` checks only that the caller is the order's buyer or
seller — it imposes no precondition on the order's current status — and
when the external Dispute call fails, the rollback unconditionally sets the
order's status to `paid` (and marks its pending transactions `failed`): for
an order in any prior status, including `completed` or `pending`, a failed
dispute leaves that order with status `paid`. -/
theorem raiseDispute_no_status_precondition_paid_rollback :
    (∀ (db : LedgerDB) (userId orderId : ℕ) (ext : SettlementResult) (o : OrderRow),
      findOrder db orderId = some o → o.buyer_id ≠ userId → o.seller_id ≠ userId →
      raiseDispute db userId orderId ext
        = (.error "Dispute failed: Only buyer or seller can raise dispute", db))
    ∧ (∀ (db : LedgerDB) (userId orderId : ℕ) (ext : SettlementResult) (o : OrderRow),
        findOrder db orderId = some o →
        (o.buyer_id = userId ∨ o.seller_id = userId) →
        ext.success = false →
        (∃ msg, (raiseDispute db userId orderId ext).1 = .error msg)
        ∧ (∀ r ∈ (raiseDispute db userId orderId ext).2.orders,
            r.order_id = orderId → r.status = EscrowOrderStatus.paid)) := by
  refine ⟨?_, ?_⟩
  · intro db userId orderId ext o hfind hb hs
    unfold raiseDispute
    rw [hfind]
    simp [hb, hs]
  · intro db userId orderId ext o hfind hcaller hext
    have hres : raiseDispute db userId orderId ext
        = (.error "Dispute failed: Dispute raise failed",
           rollbackOrderStatus
             { db with
               txns := db.txns ++ [⟨orderId, .escrow_dispute, .pending⟩],
               orders := db.orders.map (fun r =>
                 if r.order_id = orderId then { r with status := .dispute_pending } else r) }
             orderId .paid) := by
      unfold raiseDispute
      rw [hfind]
      have hna : ¬(o.buyer_id ≠ userId ∧ o.seller_id ≠ userId) := by
        rcases hcaller with h | h
        · exact fun hc => hc.1 h
        · exact fun hc => hc.2 h
      simp [hna, hext]
    refine ⟨⟨_, by rw [hres]⟩, ?_⟩
    rw [hres]
    exact rollbackOrderStatus_order_status _ orderId .paid

/-- A concrete database for the witness of C10: order 7 (buyer 1, seller 2)
is already `completed`. -/
def c10DB : LedgerDB := ⟨[1, 2], [], [⟨7, 1, 2, 42, 200, .completed, some 77⟩], []⟩

theorem raiseDispute_no_status_precondition_witness :
    (raiseDispute c10DB 3 7 ⟨true, 5⟩
       = (.error "Dispute failed: Only buyer or seller can raise dispute", c10DB))
    ∧ (∀ r ∈ (raiseDispute c10DB 2 7 ⟨false, 0⟩).2.orders,
        r.order_id = 7 → r.status = EscrowOrderStatus.paid) := by
  have h1 := raiseDispute_no_status_precondition_paid_rollback.1 c10DB 3 7 ⟨true, 5⟩
    ⟨7, 1, 2, 42, 200, .completed, some 77⟩ rfl (by norm_num) (by norm_num)
  have h2 := raiseDispute_no_status_precondition_paid_rollback.2 c10DB 2 7 ⟨false, 0⟩
    ⟨7, 1, 2, 42, 200, .completed, some 77⟩ rfl (Or.inr rfl) rfl
  exact ⟨h1, h2.2⟩

end TrustMart
